import Mathlib

/-!
Shallow embedding of the stream-reformatting logic of
`src/backend/routes/chat.py` (class `Chat`) and of the user CRUD handlers of
`src/backend/routes/users.py`, together with theorems settling the frozen
claims about them.

Python values flowing through the reformatter (results of `json.loads`,
attribute payloads) are modelled by the inductive type `Json`.  `json.loads`
itself is external library code, so it is a parameter `parse : String → Option Json`
of every definition that calls it (`none` models `json.JSONDecodeError`);
calling it on a non-string raises `TypeError`, which the embedding models
explicitly.  Numbers are modelled as `Int` (no claim exercises floats).
-/

namespace AVA

inductive Json where
  | null
  | bool (b : Bool)
  | num (n : Int)
  | str (s : String)
  | arr (items : List Json)
  | obj (fields : List (String × Json))

/-- Python truthiness (`bool(x)`): `None`, `False`, `0`, `""`, `[]`, `{}` are falsy. -/
def Json.truthy : Json → Bool
  | .null => false
  | .bool b => b
  | .num n => n != 0
  | .str s => s != ""
  | .arr items => !items.isEmpty
  | .obj fields => !fields.isEmpty

/-- Python `repr(x)` for the values of `Json` (used by `str()` on containers). -/
def Json.pyRepr : Json → String
  | .null => "None"
  | .bool true => "True"
  | .bool false => "False"
  | .num n => toString n
  | .str s => "\x27" ++ s ++ "\x27"
  | .arr items =>
      "[" ++ String.intercalate (", ") (items.attach.map fun x => x.1.pyRepr) ++ "]"
  | .obj fields =>
      "\x7b" ++
        String.intercalate (", ")
          (fields.attach.map fun x => "\x27" ++ x.1.1 ++ "\x27: " ++ x.1.2.pyRepr) ++
      "\x7d"
decreasing_by
  all_goals
    have h := List.sizeOf_lt_of_mem x.2
    first
      | (simp only [Json.arr.sizeOf_spec]; omega)
      | (have h2 : sizeOf x.1.2 < sizeOf x.1 := by
           obtain ⟨a, b⟩ := x.1
           simp only [Prod.mk.sizeOf_spec]
           omega
         simp only [Json.obj.sizeOf_spec]
         omega)

/-- Python `str(x)` as used by f-string interpolation. -/
def Json.pyStr : Json → String
  | .str s => s
  | j => j.pyRepr

/-- Python type name, as it appears in `AttributeError` messages. -/
def Json.pyTypeName : Json → String
  | .null => "NoneType"
  | .bool _ => "bool"
  | .num _ => "int"
  | .str _ => "str"
  | .arr _ => "list"
  | .obj _ => "dict"

def Json.isStr : Json → Bool
  | .str _ => true
  | _ => false

def Json.isObj : Json → Bool
  | .obj _ => true
  | _ => false

/-- `dict.get(key)` / key lookup on the field list of an object (first match). -/
def jsonLookup (fields : List (String × Json)) (key : String) : Option Json :=
  (fields.find? fun p => p.1 == key).map Prod.snd

/-- The Python exception classes the reformatter distinguishes. -/
inductive PyErr where
  | jsonDecode
  | typeError
  | attributeError
  | keyError

/-- `json.loads(content)` on a Python value: on a `str` run the (external)
parser, anything else raises `TypeError`. -/
def loads (parse : String → Option Json) : Json → Except PyErr Json
  | .str s =>
      match parse s with
      | some v => .ok v
      | none => .error .jsonDecode
  | _ => .error .typeError

/-- Python `key in x` for a string key: dict key membership, list element
membership, substring test on strings; `TypeError` otherwise. -/
def pyContains (j : Json) (key : String) : Except PyErr Bool :=
  match j with
  | .obj fields => .ok (fields.any fun p => p.1 == key)
  | .arr items =>
      .ok (items.any fun it =>
        match it with
        | .str s => s == key
        | _ => false)
  | .str s => .ok (if key == "" then true else (s.splitOn key).length ≥ 2)
  | _ => .error .typeError

/-- Python `x[key]` for a string key: dict lookup (`KeyError` when absent),
`TypeError` on lists, strings and scalars. -/
def pySubscript (j : Json) (key : String) : Except PyErr Json :=
  match j with
  | .obj fields =>
      match jsonLookup fields key with
      | some v => .ok v
      | none => .error .keyError
  | _ => .error .typeError

/-- Python iteration (`for x in j`): lists yield elements, dicts yield keys,
strings yield one-character strings; scalars raise `TypeError`. -/
def pyIter (j : Json) : Except PyErr (List Json) :=
  match j with
  | .arr items => .ok items
  | .obj fields => .ok (fields.map fun p => Json.str p.1)
  | .str s => .ok (s.data.map fun c => Json.str (String.singleton c))
  | _ => .error .typeError

/-! ## Formatters (`_format_*` of `src/backend/routes/chat.py`) -/

/-- Body of the loop of `_format_web_search_results` for one entry with index
`i ≤ 3`: `result.get("title", "Untitled")`, `result.get("url", "")`,
`result.get("content", "").strip()` — an `AttributeError` is raised when the
entry is not a dict (`.get`) or its content value is not a string (`.strip`). -/
def webSearchEntry (r : Json) : Except PyErr String :=
  match r with
  | .obj fields =>
      let title := (jsonLookup fields ("title")).getD (Json.str ("Untitled"))
      let url := (jsonLookup fields ("url")).getD (Json.str (""))
      let contentVal := (jsonLookup fields ("content")).getD (Json.str (""))
      match contentVal with
      | .str s =>
          let t := title.pyStr
          let u := url.pyStr
          let c := s.trim
          .ok (s!"\n- **{t}**\n  {c}\n  [Source]({u})\n")
      | _ => .error .attributeError
  | _ => .error .attributeError

/-- `for i, result in enumerate(..., 1): if i <= 3: ...` of
`_format_web_search_results`; fragments yielded before an error are kept. -/
def webSearchLoop : List Json → Nat → List String × Option PyErr
  | [], _ => ([], none)
  | r :: rest, i =>
      if i ≤ 3 then
        match webSearchEntry r with
        | .error e => ([], some e)
        | .ok frag =>
            let p := webSearchLoop rest (i + 1)
            (frag :: p.1, p.2)
      else
        webSearchLoop rest (i + 1)

/-- `_format_web_search_results(parsed_content)`: iterates
`parsed_content["top_k"]` (subscript or iteration may raise). -/
def format_web_search_results (pc : Json) : List String × Option PyErr :=
  match pySubscript pc ("top_k") with
  | .error e => ([], some e)
  | .ok topk =>
      match pyIter topk with
      | .error e => ([], some e)
      | .ok items => webSearchLoop items 1

/-- One entry of `_format_results_list` (index `i` is 1-based). -/
def resultsListEntry (i : Nat) (r : Json) : String :=
  match r with
  | .obj fields =>
      let name :=
        match jsonLookup fields ("name") with
        | some v => v
        | none =>
            match jsonLookup fields ("title") with
            | some v => v
            | none => Json.str ("Result " ++ toString i)
      let description :=
        match jsonLookup fields ("description") with
        | some v => v
        | none =>
            match jsonLookup fields ("content") with
            | some v => v
            | none =>
                match jsonLookup fields ("summary") with
                | some v => v
                | none => Json.str ("")
      let n := name.pyStr
      let d := description.pyStr
      s!"\n- **{n}**\n  {d}\n"
  | _ =>
      let rs := r.pyStr
      s!"\n- {rs}\n"

/-- `for i, result in enumerate(results, 1): if i <= 3: ...` of
`_format_results_list`. -/
def resultsListLoop : List Json → Nat → List String
  | [], _ => []
  | r :: rest, i =>
      if i ≤ 3 then resultsListEntry i r :: resultsListLoop rest (i + 1)
      else resultsListLoop rest (i + 1)

/-- `_format_results_list(results)` — the caller guarantees `results` is a
list (the `isinstance(parsed_content["results"], list)` guard). -/
def format_results_list (results : List Json) : List String :=
  resultsListLoop results 1

/-- One key/value line of `_format_dict_results`: string values shorter than
100 characters verbatim, everything else `[Complex data]`. -/
def dictLine (p : String × Json) : String :=
  let k := p.1
  match p.2 with
  | .str s => if s.length < 100 then s!"{k}: {s}\n" else s!"{k}: [Complex data]\n"
  | _ => s!"{k}: [Complex data]\n"

/-- `_format_dict_results(parsed_content)` — the caller guarantees a non-empty
dict, whose field list is passed here. -/
def format_dict_results (fields : List (String × Json)) : List String :=
  "\n```\n" :: ((fields.take 5).map dictLine ++ ["```\n"])

/-- One entry of `_format_list_results`: strings verbatim; dicts with a
`text` key print that value; other non-empty dicts print their first value if
it is a string under 100 characters; anything else yields nothing. -/
def listResultEntry (item : Json) : Option String :=
  match item with
  | .str s => some (s!"- {s}\n")
  | .obj fields =>
      match jsonLookup fields ("text") with
      | some v =>
          let t := v.pyStr
          some (s!"- {t}\n")
      | none =>
          match fields with
          | [] => none
          | p :: _ =>
              match p.2 with
              | .str s => if s.length < 100 then some (s!"- {s}\n") else none
              | _ => none
  | _ => none

/-- `_format_list_results(parsed_content)` — the caller guarantees a
non-empty list; `parsed_content[:3]` bounds the entries. -/
def format_list_results (items : List Json) : List String :=
  "\n" :: (items.take 3).filterMap listResultEntry

/-- The guard `"results" in parsed_content and
isinstance(parsed_content["results"], list)`: `some l` when it holds (with
`l` the list), `none` when it is false, `error` when evaluating it raises. -/
def resultsKeyList (pc : Json) : Except PyErr (Option (List Json)) :=
  match pyContains pc ("results") with
  | .error e => .error e
  | .ok false => .ok none
  | .ok true =>
      match pySubscript pc ("results") with
      | .error e => .error e
      | .ok (Json.arr l) => .ok (some l)
      | .ok _ => .ok none

/-- The two trailing `elif isinstance(...)` branches of the dispatch in
`_format_tool_results_summary` (non-empty list case; the dict case is handled
by the caller). -/
def dispatchListCase (pc : Json) : List String × Option PyErr :=
  match pc with
  | .arr items => if items.isEmpty then ([], none) else (format_list_results items, none)
  | _ => ([], none)

/-- The `if/elif` dispatch over one parsed tool result in
`_format_tool_results_summary`; the second component records an uncaught
`TypeError`/`AttributeError`/`KeyError` (logged by the caller). -/
def dispatchFormat (tool_name : String) (pc : Json) : List String × Option PyErr :=
  match (if tool_name == "web_search" then pyContains pc ("top_k")
         else Except.ok false) with
  | .error e => ([], some e)
  | .ok true => format_web_search_results pc
  | .ok false =>
      match resultsKeyList pc with
      | .error e => ([], some e)
      | .ok (some rlist) => (format_results_list rlist, none)
      | .ok none =>
          match pc with
          | .obj fields =>
              if fields.isEmpty then dispatchListCase pc
              else (format_dict_results fields, none)
          | _ => dispatchListCase pc

/-- The fragment of `_format_tool_results_summary` for a tool whose content
fails to parse as JSON. -/
def complexDataFragment (name : String) : String :=
  s!"\n**{name}** was used but returned complex data. Check the observation for details.\n"

/-- The `try`/`except` body of `_format_tool_results_summary` for one
`(tool_name, content)` pair: a `json.JSONDecodeError` yields the
"complex data" fragment; `TypeError`/`AttributeError`/`KeyError`/`IndexError`
(from `loads` on a non-string or from the dispatch) are logged, keeping the
fragments already yielded. -/
def summaryPair (parse : String → Option Json) (p : String × Json) : List String :=
  let name := p.1
  match loads parse p.2 with
  | .error .jsonDecode => [complexDataFragment name]
  | .error _ => []
  | .ok pc => (dispatchFormat name pc).1

/-- The `for tool_name, content in tool_results` loop of
`_format_tool_results_summary`: each pair is handled independently. -/
def summaryLoop (parse : String → Option Json) : List (String × Json) → List String
  | [] => []
  | p :: rest => summaryPair parse p ++ summaryLoop parse rest

/-- The header fragment of `_format_tool_results_summary`. -/
def summaryHeader : String := "\n\n**Here\x27s what I found:**\n"

/-- `_format_tool_results_summary(tool_results)`. -/
def format_tool_results_summary (parse : String → Option Json)
    (tool_results : List (String × Json)) : List String :=
  summaryHeader :: summaryLoop parse tool_results

/-! ## Events and step details -/

structure ToolResponse where
  tool_name : String
  content : Json

structure ToolCall where
  tool_name : String

inductive StepType where
  | inference
  | tool_execution
  | other

structure StepDetails where
  step_type : StepType
  tool_responses : List ToolResponse
  tool_calls : List ToolCall

inductive Delta where
  | text (t : String)
  | other

inductive Payload where
  | step_progress (delta : Delta)
  | step_complete (details : StepDetails)
  | other

/-- One item of the turn's event stream: either an event with a `payload`
attribute, or one without (`malformed`, carrying the `str()` of the whole
response used in the diagnostic fragments). -/
inductive Event where
  | withPayload (payload : Payload)
  | malformed (response : String)

/-! ## Tool-execution and inference step processing -/

/-- The `for tool_response in step_details.tool_responses` loop of
`_process_tool_execution`.  Each pair is appended first; then the debug log
runs `json.loads(content)`: on success it prints and the loop continues, but
on `json.JSONDecodeError` the fallback `print(content, language=None)` passes
an invalid keyword to builtin `print`, raising `TypeError` (and `loads` on a
non-string raises `TypeError` directly), which escapes the inner handler to
the outer `except Exception`, returning the list accumulated so far. -/
def toolExecLoop (parse : String → Option Json) :
    List ToolResponse → List (String × Json) → List (String × Json)
  | [], acc => acc
  | tr :: rest, acc =>
      match loads parse tr.content with
      | .ok _ => toolExecLoop parse rest (acc ++ [(tr.tool_name, tr.content)])
      | .error _ => acc ++ [(tr.tool_name, tr.content)]

/-- `_process_tool_execution(step_details, tool_results)`: with no tool
responses only a log line is produced and the list is returned unchanged. -/
def process_tool_execution (parse : String → Option Json) (sd : StepDetails)
    (tool_results : List (String × Json)) : List (String × Json) :=
  if sd.tool_responses.isEmpty then tool_results
  else toolExecLoop parse sd.tool_responses tool_results

/-- `answer == "null"` in Python: only the string "null" compares equal. -/
def Json.isNullLiteral : Json → Bool
  | .str s => s == "null"
  | _ => false

/-- The `str(AttributeError)` message raised by `.get` on a non-dict parsed
value in `_process_inference_step`. -/
def attributeGetMsg (v : Json) : String :=
  let t := v.pyTypeName
  s!"\x27{t}\x27 object has no attribute \x27get\x27"

/-- The diagnostic fragment of `_process_inference_step` for step content
that is not valid JSON. -/
def parseFailFragment (raw : String) : String :=
  s!"\n\nFailed to parse ReAct step content:\n```json\n{raw}\n```"

/-- The diagnostic fragment of `_process_inference_step` for any other
processing error (`f"\n\nFailed to process ReAct step: {e}\n..."`). -/
def processFailFragment (msg raw : String) : String :=
  s!"\n\nFailed to process ReAct step: {msg}\n```json\n{raw}\n```"

/-- The final-answer fragment of `_process_inference_step`. -/
def finalAnswerFragment (a : String) : String :=
  s!"\n\n✅ **Final Answer:**\n{a}"

/-- `_process_inference_step(current_step_content, tool_results, final_answer)`:
returns the yielded fragments and the returned `final_answer`.  A
`json.JSONDecodeError` and any other exception (only the `AttributeError` of
`.get` on a non-dict value is reachable) each degrade to one diagnostic
fragment; the original `final_answer` is returned in those cases. -/
def process_inference_step (parse : String → Option Json)
    (current_step_content : String) (final_answer : Option Json) :
    List String × Option Json :=
  match parse current_step_content with
  | none => ([parseFailFragment current_step_content], final_answer)
  | some v =>
      match v with
      | .obj fields =>
          let answer := (jsonLookup fields ("answer")).getD Json.null
          if answer.truthy && !answer.isNullLiteral then
            ([finalAnswerFragment answer.pyStr], some answer)
          else
            ([], final_answer)
      | _ =>
          ([processFailFragment (attributeGetMsg v) current_step_content],
           final_answer)

/-! ## The two response handlers -/

/-- The diagnostic fragment of `_handle_react_response` for an event without a
`payload` attribute. -/
def reactMalformedFragment (r : String) : String :=
  "\n\n🚨 :red[_Llama Stack server Error:_]\n" ++
  "The response received is missing an expected `payload` attribute.\n" ++
  "This could indicate a malformed response or an internal issue within the server.\n\n" ++
  s!"Error details: {r}"

def truthyOptJson : Option Json → Bool
  | none => false
  | some j => j.truthy

/-- The event loop of `_handle_react_response`, with the loop state
(`current_step_content`, `final_answer`, `tool_results`) explicit.  A
malformed event yields its diagnostic and `return`s.  On an inference
`step_complete` the source runs `yield from self._process_inference_step(...)`
as a bare statement, discarding the sub-generator's return value, so
`final_answer` is NOT updated there. -/
def handleReactLoop (parse : String → Option Json) :
    List Event → String → Option Json → List (String × Json) → List String
  | [], _, final_answer, tool_results =>
      if !truthyOptJson final_answer && !tool_results.isEmpty then
        format_tool_results_summary parse tool_results
      else []
  | e :: rest, cur, fa, trs =>
      match e with
      | .malformed r => [reactMalformedFragment r]
      | .withPayload p =>
          match p with
          | .step_progress (.text t) => handleReactLoop parse rest (cur ++ t) fa trs
          | .step_progress .other => handleReactLoop parse rest cur fa trs
          | .step_complete sd =>
              match sd.step_type with
              | .inference =>
                  (process_inference_step parse cur fa).1 ++
                    handleReactLoop parse rest ("") fa trs
              | .tool_execution =>
                  handleReactLoop parse rest ("") fa (process_tool_execution parse sd trs)
              | .other => handleReactLoop parse rest ("") fa trs
          | .other => handleReactLoop parse rest cur fa trs

/-- `_handle_react_response(turn_response)` over a finite event sequence. -/
def handle_react_response (parse : String → Option Json) (events : List Event) :
    List String :=
  handleReactLoop parse events ("") none []

/-- The diagnostic fragment of `_handle_regular_response` for an event
without a `payload` attribute. -/
def regularErrorFragment (r : String) : String :=
  s!"Error occurred in the Llama Stack Cluster: {r}"

/-- The fragments `_handle_regular_response` yields for one event. -/
def regularFragments : Event → List String
  | .malformed r => [regularErrorFragment r]
  | .withPayload p =>
      match p with
      | .step_progress (.text t) => [t]
      | .step_progress .other => []
      | .step_complete sd =>
          match sd.step_type with
          | .tool_execution =>
              match sd.tool_calls with
              | [] => ["No tool_calls present in step_details"]
              | c :: _ =>
                  let n := c.tool_name
                  [s!"\n\n🛠 :grey[_Using \"{n}\" tool:_]\n\n"]
          | _ => []
      | .other => []

/-- `_handle_regular_response(turn_response)` over a finite event sequence:
every event is processed; malformed events do not terminate the loop. -/
def handle_regular_response : List Event → List String
  | [] => []
  | e :: rest => regularFragments e ++ handle_regular_response rest

/-! ## User CRUD (`src/backend/routes/users.py`)

`bcrypt.hashpw(password, gensalt())` is external and salted, so it is a
parameter `hashpw`; fresh UUIDs are modelled as a `Nat` id supplied by the
database. -/

structure UserCreate where
  username : String
  email : String
  password : String
  role : String

structure User where
  id : Nat
  username : String
  email : String
  password_hash : String
  role : String

/-- `create_user(user, db)`: stores `bcrypt.hashpw(user.password, gensalt())`
as the password hash. -/
def create_user (hashpw : String → String) (nextId : Nat) (user : UserCreate)
    (db : List User) : User × List User :=
  let db_user : User :=
    { id := nextId
      username := user.username
      email := user.email
      password_hash := hashpw user.password
      role := user.role }
  (db_user, db ++ [db_user])

/-- `update_user(user_id, user, db)`: 404 when no user has the id; otherwise
the found row is updated — `db_user.password_hash = user.password` stores the
request's plaintext password directly. -/
def update_user (user_id : Nat) (user : UserCreate) (db : List User) :
    Except String (User × List User) :=
  match db.find? fun u => u.id == user_id with
  | none => .error ("User not found")
  | some db_user =>
      let updated : User :=
        { db_user with
            username := user.username
            email := user.email
            password_hash := user.password
            role := user.role }
      .ok (updated, db.map fun u => if u.id == user_id then updated else u)

/-! ## Helper lemmas -/

theorem summaryLoop_append (parse : String → Option Json)
    (xs ys : List (String × Json)) :
    summaryLoop parse (xs ++ ys) = summaryLoop parse xs ++ summaryLoop parse ys := by
  induction xs with
  | nil => simp [summaryLoop]
  | cons p rest ih => simp [summaryLoop, ih]

theorem webSearchLoop_length_le (l : List Json) :
    ∀ i : Nat, (webSearchLoop l i).1.length ≤ 4 - i := by
  induction l with
  | nil => intro i; simp [webSearchLoop]
  | cons r rest ih =>
      intro i
      by_cases h : i ≤ 3
      · cases hE : webSearchEntry r with
        | error e => simp [webSearchLoop, h, hE]
        | ok frag =>
            have hr := ih (i + 1)
            simp only [webSearchLoop, if_pos h, hE, List.length_cons]
            omega
      · have hr := ih (i + 1)
        simp only [webSearchLoop, if_neg h]
        omega

theorem resultsListLoop_length_le (l : List Json) :
    ∀ i : Nat, (resultsListLoop l i).length ≤ 4 - i := by
  induction l with
  | nil => intro i; simp [resultsListLoop]
  | cons r rest ih =>
      intro i
      by_cases h : i ≤ 3
      · have hr := ih (i + 1)
        simp only [resultsListLoop, if_pos h, List.length_cons]
        omega
      · have hr := ih (i + 1)
        simp only [resultsListLoop, if_neg h]
        omega

/-! ## Claim theorems -/

/-- Claim C1 (code bug, evaluated at a failing input): a ReAct turn that
records one tool result and then an inference step whose buffered text parses
to `{"answer": "42"}` emits the final-answer fragment AND still emits the
tool-results summary header at sequence end.  The source runs
`yield from self._process_inference_step(...)` as a bare statement, so the
sub-generator's returned `final_answer` is discarded and the outer
`final_answer` stays `None`, making the suppression check dead. -/
theorem c1_summary_despite_final_answer :
    handle_react_response
      (fun s =>
        if s = "ANS" then some (Json.obj [(("answer" : String), Json.str ("42"))])
        else if s = "\x7b\x7d" then some (Json.obj []) else none)
      [Event.withPayload (Payload.step_complete
          (StepDetails.mk StepType.tool_execution
            [ToolResponse.mk ("web_search") (Json.str ("\x7b\x7d"))] [])),
       Event.withPayload (Payload.step_progress (Delta.text ("ANS"))),
       Event.withPayload (Payload.step_complete
          (StepDetails.mk StepType.inference [] []))]
      = [finalAnswerFragment ("42"), summaryHeader] := by
  rfl

/-- Claim C2: for an event without a `payload` attribute, ReAct mode emits
exactly one diagnostic fragment (from any loop state) and processes no
subsequent event, while Regular mode emits one diagnostic fragment naming the
whole event and continues with the remaining events. -/
theorem c2_malformed_event_handling (parse : String → Option Json) (r : String)
    (rest : List Event) (cur : String) (fa : Option Json)
    (trs : List (String × Json)) :
    handleReactLoop parse (Event.malformed r :: rest) cur fa trs
        = [reactMalformedFragment r]
    ∧ handle_react_response parse (Event.malformed r :: rest)
        = [reactMalformedFragment r]
    ∧ handle_regular_response (Event.malformed r :: rest)
        = regularErrorFragment r :: handle_regular_response rest :=
  ⟨rfl, rfl, rfl⟩

/-- Claim C3 (counterexample): an inference step whose buffered text parses
to an object whose `answer` is the empty string emits NO fragment — the empty
string is falsy in `if answer and answer != "null"` — refuting "exactly one
fragment ... including when that string is empty". -/
theorem c3_empty_answer_counterexample :
    process_inference_step
        (fun _ => some (Json.obj [(("answer" : String), Json.str (""))]))
        ("EMP") none = ([], none)
    ∧ handle_react_response
        (fun _ => some (Json.obj [(("answer" : String), Json.str (""))]))
        [Event.withPayload (Payload.step_progress (Delta.text ("EMP"))),
         Event.withPayload (Payload.step_complete
           (StepDetails.mk StepType.inference [] []))] = [] :=
  ⟨rfl, rfl⟩

/-- Claim C3 (amended): for every `StepComplete`/`Inference` event whose
buffered text parses to an object whose `answer` field is a non-empty string
other than the literal "null", exactly the fragment
`"\n\n✅ **Final Answer:**\n{answer}"` is emitted; when the answer string is
empty, no fragment is emitted. -/
theorem c3_final_answer_fragment (parse : String → Option Json) (text : String)
    (fields : List (String × Json)) (s : String) (fa : Option Json)
    (hparse : parse text = some (Json.obj fields))
    (hans : jsonLookup fields ("answer") = some (Json.str s)) :
    (s ≠ "" → s ≠ "null" →
      process_inference_step parse text fa
        = ([finalAnswerFragment s], some (Json.str s)))
    ∧ (s = "" → process_inference_step parse text fa = ([], fa)) := by
  constructor
  · intro h1 h2
    have hb1 : (s != "") = true := bne_iff_ne.mpr h1
    have hb2 : (s == "null") = false := beq_eq_false_iff_ne.mpr h2
    simp [process_inference_step, hparse, hans, Json.truthy, Json.isNullLiteral,
          Json.pyStr, hb1, hb2]
  · intro h
    subst h
    simp [process_inference_step, hparse, hans, Json.truthy, Json.isNullLiteral]

/-- Witness for the amended claim C3 at a concrete input. -/
theorem c3_final_answer_fragment_witness :
    process_inference_step
        (fun _ => some (Json.obj [(("answer" : String), Json.str ("42"))]))
        ("W") none
      = ([finalAnswerFragment ("42")], some (Json.str ("42"))) :=
  (c3_final_answer_fragment
      (fun _ => some (Json.obj [(("answer" : String), Json.str ("42"))]))
      ("W") [(("answer" : String), Json.str ("42"))] ("42") none rfl rfl).1
    (by decide) (by decide)

/-- Claim C4 (code bug, evaluated at a failing input): a tool-execution step
with two responses whose first content is not valid JSON appends only the
first pair.  The debug log's `json.JSONDecodeError` fallback is
`print(content, language=None)`, and `language` is an invalid keyword for
builtin `print`, so it raises `TypeError`; the outer `except Exception`
swallows it and returns, so the second response is never appended. -/
theorem c4_tool_responses_dropped_after_decode_error :
    process_tool_execution
      (fun s => if s = "\x7b\x7d" then some (Json.obj []) else none)
      (StepDetails.mk StepType.tool_execution
        [ToolResponse.mk ("t1") (Json.str ("oops")),
         ToolResponse.mk ("t2") (Json.str ("\x7b\x7d"))] [])
      [] = [(("t1" : String), Json.str ("oops"))] := by
  rfl

/-- Claim C5: a successful `update_user` stores the request's plaintext
password verbatim as `password_hash` (and the updated row is in the stored
list), while `create_user` stores the bcrypt hash of the password — so after
an update the password is persisted in clear text. -/
theorem c5_update_user_plaintext_password (hashpw : String → String)
    (nextId user_id : Nat) (user : UserCreate) (db db2 : List User)
    (updated : User)
    (hok : update_user user_id user db = Except.ok (updated, db2)) :
    updated.password_hash = user.password ∧ updated ∈ db2
    ∧ (create_user hashpw nextId user db).1.password_hash
        = hashpw user.password := by
  unfold update_user at hok
  cases hfind : db.find? fun u => u.id == user_id with
  | none =>
      rw [hfind] at hok
      exact absurd hok (by simp)
  | some du =>
      rw [hfind] at hok
      simp only [Except.ok.injEq, Prod.mk.injEq] at hok
      obtain ⟨h1, h2⟩ := hok
      subst h1
      subst h2
      refine ⟨rfl, ?_, rfl⟩
      have hdu : du ∈ db := List.mem_of_find?_eq_some hfind
      have hp := List.find?_some hfind
      refine List.mem_map.mpr ⟨du, hdu, ?_⟩
      simp [hp]

/-- Witness for claim C5 at a concrete database. -/
theorem c5_update_user_plaintext_password_witness :
    (User.mk 1 ("u2") ("e2") ("pw") ("admin")).password_hash = ("pw" : String)
    ∧ User.mk 1 ("u2") ("e2") ("pw") ("admin")
        ∈ [User.mk 1 ("u2") ("e2") ("pw") ("admin")]
    ∧ (create_user (fun s => String.append ("H$") s) 2
         (UserCreate.mk ("u2") ("e2") ("pw") ("admin"))
         [User.mk 1 ("u") ("e") ("old") ("admin")]).1.password_hash
        = String.append ("H$") ("pw") :=
  c5_update_user_plaintext_password (fun s => String.append ("H$") s) 2 1
    (UserCreate.mk ("u2") ("e2") ("pw") ("admin"))
    [User.mk 1 ("u") ("e") ("old") ("admin")]
    [User.mk 1 ("u2") ("e2") ("pw") ("admin")]
    (User.mk 1 ("u2") ("e2") ("pw") ("admin")) rfl

/-- Claim C6: in Regular mode a stream of `StepProgress` text deltas (and
nothing else) is emitted verbatim and in order, so the concatenation of the
fragments equals the concatenation of the deltas. -/
theorem c6_regular_deltas_verbatim (deltas : List String) :
    handle_regular_response
        (deltas.map fun t => Event.withPayload (Payload.step_progress (Delta.text t)))
      = deltas
    ∧ String.join (handle_regular_response
        (deltas.map fun t => Event.withPayload (Payload.step_progress (Delta.text t))))
      = String.join deltas := by
  have h : ∀ ds : List String, handle_regular_response
      (ds.map fun t => Event.withPayload (Payload.step_progress (Delta.text t))) = ds := by
    intro ds
    induction ds with
    | nil => rfl
    | cons t ts ih => simp [handle_regular_response, regularFragments, ih]
  exact ⟨h deltas, by rw [h deltas]⟩

/-- Claim C7: the tool-results summary starts with the header and then
handles every recorded pair independently and in order; a pair whose content
fails JSON parsing contributes exactly the complex-data fragment, and the
pairs after any pair — including one whose formatting raised a type/key error
— are still formatted. -/
theorem c7_summary_structure (parse : String → Option Json)
    (xs ys : List (String × Json)) (p : String × Json) (name s : String)
    (hfail : parse s = none) :
    format_tool_results_summary parse (xs ++ p :: ys)
      = summaryHeader
          :: (summaryLoop parse xs ++ (summaryPair parse p ++ summaryLoop parse ys))
    ∧ summaryPair parse (name, Json.str s) = [complexDataFragment name] := by
  constructor
  · simp [format_tool_results_summary, summaryLoop_append, summaryLoop]
  · simp [summaryPair, loads, hfail]

/-- Witness for claim C7 at a concrete input. -/
theorem c7_summary_structure_witness :
    format_tool_results_summary (fun _ => none)
        ([(("a" : String), Json.str ("x"))] ++ (("b" : String), Json.str ("y")) :: [])
      = summaryHeader
          :: (summaryLoop (fun _ => none) [(("a" : String), Json.str ("x"))]
              ++ (summaryPair (fun _ => none) (("b" : String), Json.str ("y"))
                  ++ summaryLoop (fun _ => none) []))
    ∧ summaryPair (fun _ => none) (("t" : String), Json.str ("z"))
        = [complexDataFragment ("t")] :=
  c7_summary_structure (fun _ => none) [(("a" : String), Json.str ("x"))]
    [] (("b" : String), Json.str ("y")) ("t") ("z") rfl

/-- Claim C8: the tool-result formatters emit at most 3 entries for
list-shaped values (web-search `top_k`, `results` lists, plain lists — the
plain-list formatter adds one fixed separator fragment) and at most the first
5 key lines for dict-shaped values (plus the two fixed fence fragments),
whatever the input size. -/
theorem c8_formatting_bounds (pc : Json) (results items : List Json)
    (fields : List (String × Json)) :
    (format_web_search_results pc).1.length ≤ 3
    ∧ (format_results_list results).length ≤ 3
    ∧ (format_list_results items).length ≤ 1 + 3
    ∧ (format_dict_results fields).length ≤ 2 + 5 := by
  refine ⟨?_, ?_, ?_, ?_⟩
  · unfold format_web_search_results
    cases hs : pySubscript pc ("top_k") with
    | error e => simp
    | ok topk =>
        cases hi : pyIter topk with
        | error e => simp [hi]
        | ok l =>
            have hb := webSearchLoop_length_le l 1
            simp only [hi]
            simpa using hb
  · have hb := resultsListLoop_length_le results 1
    simpa [format_results_list] using hb
  · simp only [format_list_results, List.length_cons]
    have h1 : ((items.take 3).filterMap listResultEntry).length
        ≤ (items.take 3).length := List.length_filterMap_le _ _
    have h2 : (items.take 3).length ≤ 3 := List.length_take_le _ _
    omega
  · simp only [format_dict_results, List.length_cons, List.length_append,
               List.length_map, List.length_nil]
    have hb := List.length_take_le 5 fields
    omega

/-- Claim C9: among the first 5 key/value pairs of dict-shaped formatting,
each pair's line appears in the output; a string value shorter than 100
characters renders verbatim as `"{key}: {value}\n"`, while a string of length
at least 100 and any non-string value render as `"{key}: [Complex data]\n"`,
never the literal value. -/
theorem c9_dict_value_rendering (fields : List (String × Json)) (k s : String)
    (v : Json) :
    ((k, v) ∈ fields.take 5 → dictLine (k, v) ∈ format_dict_results fields)
    ∧ (s.length < 100 → dictLine (k, Json.str s) = s!"{k}: {s}\n")
    ∧ (100 ≤ s.length → dictLine (k, Json.str s) = s!"{k}: [Complex data]\n")
    ∧ (v.isStr = false → dictLine (k, v) = s!"{k}: [Complex data]\n") := by
  refine ⟨?_, ?_, ?_, ?_⟩
  · intro hmem
    simp only [format_dict_results, List.mem_cons, List.mem_append]
    exact Or.inr (Or.inl (List.mem_map_of_mem _ hmem))
  · intro h
    simp [dictLine, h]
  · intro h
    simp [dictLine, Nat.not_lt.mpr h]
  · intro h
    cases v <;> simp_all [dictLine, Json.isStr]

/-- Witness for claim C9 at concrete inputs (a short string, a 100-character
string, a non-string value). -/
theorem c9_dict_value_rendering_witness :
    dictLine (("a" : String), Json.str ("v"))
        ∈ format_dict_results [(("a" : String), Json.str ("v"))]
    ∧ dictLine (("a" : String), Json.str ("v")) = "a: v\n"
    ∧ dictLine (("b" : String),
          Json.str (String.mk (List.replicate 100 (Char.ofNat 97))))
        = "b: [Complex data]\n"
    ∧ dictLine (("c" : String), Json.num 3) = "c: [Complex data]\n" :=
  ⟨(c9_dict_value_rendering [(("a" : String), Json.str ("v"))] ("a") ("v")
      (Json.str ("v"))).1 (by simp),
   (c9_dict_value_rendering [] ("a") ("v") Json.null).2.1 (by decide),
   (c9_dict_value_rendering [] ("b")
      (String.mk (List.replicate 100 (Char.ofNat 97))) Json.null).2.2.1 (by decide),
   (c9_dict_value_rendering [] ("c") ("") (Json.num 3)).2.2.2 rfl⟩

/-- Claim C10: inference-step error handling — step text that is not valid
JSON yields exactly one diagnostic fragment containing the raw text; a parsed
non-object value (the only other reachable processing error: the
`AttributeError` of `.get`) yields exactly one diagnostic fragment containing
the error message and the raw text; `process_inference_step` is a total
function, so no exception reaches the caller. -/
theorem c10_inference_step_errors (parse : String → Option Json) (text : String)
    (fa : Option Json) (v : Json) :
    (parse text = none →
      process_inference_step parse text fa = ([parseFailFragment text], fa))
    ∧ (parse text = some v → v.isObj = false →
      process_inference_step parse text fa
        = ([processFailFragment (attributeGetMsg v) text], fa)) := by
  constructor
  · intro h
    simp [process_inference_step, h]
  · intro h hv
    cases v <;> simp_all [process_inference_step, Json.isObj]

/-- Witness for claim C10 at concrete inputs (unparseable text; text parsing
to a non-object). -/
theorem c10_inference_step_errors_witness :
    process_inference_step (fun _ => none) ("bad") none
        = ([parseFailFragment ("bad")], none)
    ∧ process_inference_step (fun _ => some (Json.num 7)) ("7") none
        = ([processFailFragment (attributeGetMsg (Json.num 7)) ("7")], none) :=
  ⟨(c10_inference_step_errors (fun _ => none) ("bad") none Json.null).1 rfl,
   (c10_inference_step_errors (fun _ => some (Json.num 7)) ("7") none
      (Json.num 7)).2 rfl rfl⟩

end AVA
